import Mathlib

/-!
Shallow embedding of the four thin client libraries (Redis, OpenSearch, S3,
Artemis/AMQP) of this repository, and proofs about the claims of its
specification.  Pure fragments of the Python code become Lean functions;
the vendor SDK state (a Redis list store, an S3 object store, an OpenSearch
connection) becomes explicit state passing; fallible vendor calls become
`Except`-valued parameters.
-/

/-! ## Python JSON values and `json.dumps`

HTTP request bodies and Redis queue messages are Python values drawn from
JSON (str, int, bool, None, list, dict).  Dicts are insertion-ordered
association lists, matching Python semantics.  JSON numbers are modelled as
integers (no claim computes with non-integral numbers at this layer). -/

inductive PyJson where
  | pnull : PyJson
  | pbool : Bool → PyJson
  | pint : Int → PyJson
  | pstr : String → PyJson
  | parr : List PyJson → PyJson
  | pobj : List (String × PyJson) → PyJson
deriving Repr

/-- Lowercase hexadecimal digit. -/
def hexDigit (n : Nat) : Char :=
  if n < 10 then Char.ofNat (48 + n) else Char.ofNat (87 + n)

/-- Four-digit lowercase hexadecimal rendering, as in Python's `\uXXXX`. -/
def hex4 (n : Nat) : String :=
  String.mk [hexDigit (n / 4096 % 16), hexDigit (n / 256 % 16),
             hexDigit (n / 16 % 16), hexDigit (n % 16)]

/-- Escape one character the way `json.dumps` (default `ensure_ascii=True`)
does: short escapes for quote, backslash and common controls, `\uXXXX`
for other controls and non-ASCII, surrogate pairs above the BMP. -/
def pyJsonEscapeChar (c : Char) : String :=
  if c = '"' then "\\\""
  else if c = '\\' then "\\\\"
  else if c = '\n' then "\\n"
  else if c = '\t' then "\\t"
  else if c = '\r' then "\\r"
  else if c.toNat = 8 then "\\b"
  else if c.toNat = 12 then "\\f"
  else if c.toNat < 32 then "\\u" ++ hex4 c.toNat
  else if c.toNat < 127 then String.mk [c]
  else if c.toNat < 65536 then "\\u" ++ hex4 c.toNat
  else
    let n := c.toNat - 65536
    "\\u" ++ hex4 (55296 + n / 1024) ++ "\\u" ++ hex4 (56320 + n % 1024)

/-- The body of a JSON string literal, character by character. -/
def pyJsonEscape (s : String) : String :=
  s.data.foldl (fun acc c => acc ++ pyJsonEscapeChar c) ""

mutual

/-- Model of `json.dumps` with Python's default separators `", "` and `": "`. -/
def jsonDumps : PyJson → String
  | .pnull => "null"
  | .pbool true => "true"
  | .pbool false => "false"
  | .pint n => toString n
  | .pstr s => "\"" ++ pyJsonEscape s ++ "\""
  | .parr xs => "[" ++ jsonDumpsArr xs ++ "]"
  | .pobj fs => "\x7b" ++ jsonDumpsObj fs ++ "\x7d"

def jsonDumpsArr : List PyJson → String
  | [] => ""
  | [x] => jsonDumps x
  | x :: y :: rest => jsonDumps x ++ ", " ++ jsonDumpsArr (y :: rest)

def jsonDumpsObj : List (String × PyJson) → String
  | [] => ""
  | [(k, v)] => "\"" ++ pyJsonEscape k ++ "\": " ++ jsonDumps v
  | (k, v) :: p :: rest =>
      "\"" ++ pyJsonEscape k ++ "\": " ++ jsonDumps v ++ ", " ++
        jsonDumpsObj (p :: rest)

end

/-! ## Redis list store and `RedisClient`
(src/redis_client/my_redis_client/client/client.py)

The vendor SDK state is the Redis keyspace restricted to lists: a map from
key to the stored list, left end at the head.  Each vendor command is a
state transformer, exactly mirroring the Redis commands the client calls. -/

def RedisState : Type := String → List String

/-- Replace the list stored at one key. -/
def setQueue (st : RedisState) (q : String) (l : List String) : RedisState :=
  fun q2 => if q2 = q then l else st q2

/-- Redis LPUSH: prepend, return the new length. -/
def lpush (st : RedisState) (q : String) (m : String) : Int × RedisState :=
  let l := m :: st q
  (l.length, setQueue st q l)

/-- Redis RPUSH: append, return the new length. -/
def rpush (st : RedisState) (q : String) (m : String) : Int × RedisState :=
  let l := st q ++ [m]
  (l.length, setQueue st q l)

/-- Redis LPOP: remove and return the head, `none` on an empty list. -/
def lpop (st : RedisState) (q : String) : Option String × RedisState :=
  match st q with
  | [] => (none, st)
  | x :: rest => (some x, setQueue st q rest)

/-- Redis RPOP: remove and return the last element, `none` on an empty list. -/
def rpop (st : RedisState) (q : String) : Option String × RedisState :=
  match (st q).getLast? with
  | none => (none, st)
  | some x => (some x, setQueue st q (st q).dropLast)

/-- Redis LLEN. -/
def llen (st : RedisState) (q : String) : Int × RedisState :=
  ((st q).length, st)

/-- LRANGE start index resolution: a negative index counts from the end
and is clamped at 0. -/
def lrangeStart (n start : Int) : Int :=
  if start < 0 then max (n + start) 0 else start

/-- LRANGE stop index resolution: a negative index counts from the end,
and the stop is clamped at the last element. -/
def lrangeStop (n stop : Int) : Int :=
  min (if stop < 0 then n + stop else stop) (n - 1)

/-- Redis LRANGE on a stored list: negative indices count from the end,
out-of-range indices are clamped, start past stop gives `[]`. -/
def lrangeList (l : List String) (start stop : Int) : List String :=
  let s := lrangeStart l.length start
  let e := lrangeStop l.length stop
  if s > e then [] else (l.drop s.toNat).take (e - s + 1).toNat

/-- Redis LRANGE as the (read-only) vendor command. -/
def lrange (st : RedisState) (q : String) (start stop : Int) :
    List String × RedisState :=
  (lrangeList (st q) start stop, st)

/-- Redis DEL on one key: drop the list, report whether a key was removed. -/
def redisDel (st : RedisState) (q : String) : Int × RedisState :=
  (if st q = [] then 0 else 1, setQueue st q [])

/-- The message union accepted by the push endpoint and forwarded to
`RedisClient.queue_push`: a string, a dict or a list
(`QueuePushRequest.message : Union[str, dict, list]`). -/
inductive RedisMessage where
  | mstr : String → RedisMessage
  | mdict : List (String × PyJson) → RedisMessage
  | mlist : List PyJson → RedisMessage

/-- The conversion done at the top of `queue_push`: dicts and lists go
through `json.dumps`, strings through `str` (the identity on a str). -/
def messageToStr : RedisMessage → String
  | .mstr s => s
  | .mdict d => jsonDumps (.pobj d)
  | .mlist l => jsonDumps (.parr l)

/-- The pushed message as the JSON value the HTTP client sent. -/
def messageToJson : RedisMessage → PyJson
  | .mstr s => .pstr s
  | .mdict d => .pobj d
  | .mlist l => .parr l

/-- Model of `RedisClient.queue_push`: serialise the message, then LPUSH or RPUSH
depending on `side`; returns the new queue length. -/
def queue_push (queue_name : String) (message : RedisMessage) (side : String)
    (st : RedisState) : Int × RedisState :=
  let message_str := messageToStr message
  if side = "left" then lpush st queue_name message_str
  else rpush st queue_name message_str

/-- Model of `RedisClient.queue_pop`: LPOP or RPOP depending on `side`; `none` when
the queue is empty. -/
def queue_pop (queue_name : String) (side : String) (st : RedisState) :
    Option String × RedisState :=
  if side = "left" then lpop st queue_name else rpop st queue_name

/-- Model of `RedisClient.queue_size`: LLEN. -/
def queue_size (queue_name : String) (st : RedisState) : Int × RedisState :=
  llen st queue_name

/-- Model of `RedisClient.queue_peek`: LRANGE 0 (count-1) from the left,
LRANGE (-count) (-1) from the right; never removes elements. -/
def queue_peek (queue_name : String) (count : Int) (side : String)
    (st : RedisState) : List String × RedisState :=
  if side = "left" then lrange st queue_name 0 (count - 1)
  else lrange st queue_name (-count) (-1)

/-- Model of `RedisClient.queue_clear`: DEL, reporting whether a key was deleted. -/
def queue_clear (queue_name : String) (st : RedisState) : Bool × RedisState :=
  let (deleted, st2) := redisDel st queue_name
  (deleted > 0, st2)

/-- Model of `RedisClient.queue_exists`: queue size strictly positive. -/
def queue_exists (queue_name : String) (st : RedisState) : Bool × RedisState :=
  let (size, st2) := queue_size queue_name st
  (size > 0, st2)

/-- The side opposite to the one pushed on, as the round-trip claim uses. -/
def oppositeSide (side : String) : String :=
  if side = "left" then "right" else "left"

/-! ## Blocking pop and the Redis HTTP routes
(src/redis_client/my_redis_client/client/client.py,
src/redis_client/routes.py, src/redis_client/my_redis_client/endpoint/entities.py) -/

/-- Model of `queue_names : Union[str, list[str]]` of `queue_blocking_pop`. -/
inductive QueueNames where
  | one : String → QueueNames
  | many : List String → QueueNames

/-- The `isinstance(queue_names, str)` normalisation at the top of
`queue_blocking_pop`. -/
def normalizeQueueNames : QueueNames → List String
  | .one s => [s]
  | .many l => l

/-- The first listed key holding a non-empty list (the key Redis BLPOP and
BRPOP serve from). -/
def firstNonEmpty (st : RedisState) : List String → Option String
  | [] => none
  | q :: rest => if st q = [] then firstNonEmpty st rest else some q

/-- Redis BLPOP at the instant the queues are inspected: pop the head of
the first non-empty listed queue, `none` when all are empty (timeout).
Real time is not modelled; the timeout only selects the `none` case. -/
def blpop (st : RedisState) (queue_names : List String) :
    Option (String × String) × RedisState :=
  match firstNonEmpty st queue_names with
  | none => (none, st)
  | some q =>
      match lpop st q with
      | (some m, st2) => (some (q, m), st2)
      | (none, st2) => (none, st2)

/-- Redis BRPOP, same shape as `blpop` but popping from the right. -/
def brpop (st : RedisState) (queue_names : List String) :
    Option (String × String) × RedisState :=
  match firstNonEmpty st queue_names with
  | none => (none, st)
  | some q =>
      match rpop st q with
      | (some m, st2) => (some (q, m), st2)
      | (none, st2) => (none, st2)

/-- Model of `RedisClient.queue_blocking_pop`: normalise the names, then BLPOP or
BRPOP depending on `side`.  The `timeout` is passed straight through to the
vendor call and plays no role beyond the timeout (`none`) outcome. -/
def queue_blocking_pop (queue_names : QueueNames) (timeout : Int)
    (side : String) (st : RedisState) :
    Option (String × String) × RedisState :=
  let names := normalizeQueueNames queue_names
  if side = "left" then blpop st names else brpop st names

/-- A single quote character, used in route detail strings. -/
def singleQuote : String := String.mk [Char.ofNat 39]

/-- Outcome of an HTTP route invocation: a JSON body, a schema validation
rejection (FastAPI 422, raised before the handler body runs), an
`HTTPException` raised by the handler, or a vendor exception propagating
unhandled out of the route. -/
inductive RouteResult (α : Type) where
  | ok : α → RouteResult α
  | validationError : RouteResult α
  | httpError : Nat → String → RouteResult α
  | unhandled : String → RouteResult α

/-- The POST /redis/queues/pop handler (src/redis_client/routes.py):
`vendorResult` is what the awaited `RedisClient.queue_pop` call produced —
`Except.error` when the vendor SDK raised.  The handler has no
try/except, so the error passes through; `None` becomes a 404. -/
def queue_pop_route (queue_name : String)
    (vendorResult : Except String (Option String)) : RouteResult PyJson :=
  match vendorResult with
  | .error e => .unhandled e
  | .ok none =>
      .httpError 404 ("Queue " ++ singleQuote ++ queue_name ++ singleQuote ++ " is empty")
  | .ok (some message) =>
      .ok (.pobj [("queue_name", .pstr queue_name),
                  ("message", .pstr message)])

/-- The `pattern="^(left|right)$"` constraint. -/
def sidePattern (s : String) : Bool := s = "left" || s = "right"

/-- Model of `QueueBlockingPopRequest` with its declared constraints:
`timeout : int = Field(0, ge=0, le=3600)`, `side` matching
`^(left|right)$`. -/
structure QueueBlockingPopRequest where
  queue_names : QueueNames
  timeout : Int
  side : String

/-- Pydantic validation of `QueueBlockingPopRequest`. -/
def validBlockingPop (r : QueueBlockingPopRequest) : Bool :=
  (0 ≤ r.timeout && r.timeout ≤ 3600) && sidePattern r.side

/-- Model of `QueuePeekRequest` with its declared constraints:
`count : int = Field(1, ge=1, le=1000)`, `side` matching
`^(left|right)$`. -/
structure QueuePeekRequest where
  queue_name : String
  count : Int
  side : String

/-- Pydantic validation of `QueuePeekRequest`. -/
def validPeek (r : QueuePeekRequest) : Bool :=
  (1 ≤ r.count && r.count ≤ 1000) && sidePattern r.side

/-- Model of `GeneratePresignedUrlRequest` (src/s3_client/entities.py) with its
declared constraints: `expiration = Field(3600, ge=1, le=604800)`,
`method = Field("get_object", pattern="^(get_object|put_object)$")`. -/
structure GeneratePresignedUrlRequest where
  bucket_name : String
  object_key : String
  expiration : Int
  method : String

/-- The `^(get_object|put_object)$` pattern. -/
def methodPattern (s : String) : Bool := s = "get_object" || s = "put_object"

/-- Pydantic validation of `GeneratePresignedUrlRequest`. -/
def validPresigned (r : GeneratePresignedUrlRequest) : Bool :=
  (1 ≤ r.expiration && r.expiration ≤ 604800) && methodPattern r.method

/-- POST /redis/queues/blocking-pop: FastAPI validates the request model
first; only a valid request reaches the handler, which performs exactly one
vendor operation (the blocking pop).  The returned `Nat` counts the vendor
operations issued. -/
def blocking_pop_route (r : QueueBlockingPopRequest) (st : RedisState) :
    RouteResult PyJson × RedisState × Nat :=
  if validBlockingPop r then
    match queue_blocking_pop r.queue_names r.timeout r.side st with
    | (none, st2) =>
        (.httpError 408 "Timeout: no message received within the specified timeout",
         st2, 1)
    | (some (q, m), st2) =>
        (.ok (.pobj [("queue_name", .pstr q), ("message", .pstr m)]), st2, 1)
  else (.validationError, st, 0)

/-- POST /redis/queues/peek, with the vendor-operation count. -/
def peek_route (r : QueuePeekRequest) (st : RedisState) :
    RouteResult PyJson × RedisState × Nat :=
  if validPeek r then
    match queue_peek r.queue_name r.count r.side st with
    | (messages, st2) =>
        (.ok (.pobj [("queue_name", .pstr r.queue_name),
                     ("messages", .parr (messages.map .pstr)),
                     ("count", .pint messages.length)]), st2, 1)
  else (.validationError, st, 0)

/-- POST /s3/objects/presigned-url: `presign` is the behaviour of the
vendor `generate_presigned_url` call (bucket, key, expiration, method to
URL); the count is the number of vendor calls issued. -/
def presigned_url_route (r : GeneratePresignedUrlRequest)
    (presign : String → String → Int → String → String) :
    RouteResult PyJson × Nat :=
  if validPresigned r then
    (.ok (.pobj [("bucket_name", .pstr r.bucket_name),
                 ("object_key", .pstr r.object_key),
                 ("url", .pstr (presign r.bucket_name r.object_key
                                  r.expiration r.method)),
                 ("expiration", .pint r.expiration)]), 1)
  else (.validationError, 0)

/-! ## S3 object store and `S3Client` (src/s3_client/client/client.py)

The vendor state is the object store: bucket and key to stored body bytes
(modelled as lists of byte values).  Object metadata (content type, user
metadata) is carried to the vendor call but not part of the stored body. -/

def S3Store : Type := String → String → Option (List Nat)

/-- S3 PutObject: store the body bytes under bucket/key. -/
def put_object (store : S3Store) (bucket key : String) (body : List Nat) :
    S3Store :=
  fun b k => if b = bucket && k = key then some body else store b k

/-- S3 GetObject: the stored bytes, or the vendor `NoSuchKey` error. -/
def get_object (store : S3Store) (bucket key : String) :
    Except String (List Nat) :=
  match store bucket key with
  | some body => .ok body
  | none => .error "NoSuchKey"

/-- Model of `data : Union[bytes, BinaryIO, str]` of `S3Client.upload_object`:
raw bytes, a local file path, or a readable stream. -/
inductive UploadData where
  | ubytes : List Nat → UploadData
  | ufilePath : String → UploadData
  | ustream : List Nat → UploadData

/-- The normalisation at the top of `upload_object`: a str is opened and
read as a file (`fs` is the local filesystem, a raising `open` on a
missing path), a stream is read, bytes pass through. -/
def readUploadData (fs : String → Option (List Nat)) :
    UploadData → Except String (List Nat)
  | .ubytes b => .ok b
  | .ufilePath p =>
      match fs p with
      | some b => .ok b
      | none => .error "FileNotFoundError"
  | .ustream b => .ok b

/-- Model of `S3Client.upload_object`: normalise `data`, PutObject, and return the
fixed success dict.  `content_type` and `metadata` are forwarded to the
vendor call as `ExtraArgs` and do not touch the stored body. -/
def upload_object (bucket_name object_key : String) (data : UploadData)
    (content_type : Option String) (metadata : Option (List (String × String)))
    (fs : String → Option (List Nat)) (store : S3Store) :
    Except String PyJson × S3Store :=
  match readUploadData fs data with
  | .error e => (.error e, store)
  | .ok bytes =>
      (.ok (.pobj [("bucket_name", .pstr bucket_name),
                   ("object_key", .pstr object_key),
                   ("message", .pstr "Object uploaded successfully")]),
       put_object store bucket_name object_key bytes)

/-- Model of `S3Client.download_object`: GetObject and read the body; there is no
try/except, so a vendor error propagates to the caller. -/
def download_object (bucket_name object_key : String) (store : S3Store) :
    Except String (List Nat) :=
  get_object store bucket_name object_key

/-! ## Wrapper methods over a fallible vendor call (claim C2)

Each definition takes the outcome of the awaited vendor SDK call —
`Except.error` when the call raised — and mirrors exactly the wrapper
method's handling of it. -/

/-- Model of `RedisClient.ping`: try/except around `self._conn.ping()`; the result
is compared `is True`, any exception becomes `False`. -/
def redis_ping (vendor : Except String Bool) : Bool :=
  match vendor with
  | .ok result => result
  | .error _ => false

/-- Model of `OpenSearchClient.ping`: `return await self._conn.ping()` — no
try/except, the vendor outcome is returned or propagated as is. -/
def opensearch_ping (vendor : Except String Bool) : Except String Bool :=
  vendor

/-- Model of `S3Client.ping`: try/except around `list_buckets`; success is `True`,
any exception becomes `False`. -/
def s3_ping (vendor : Except String Unit) : Bool :=
  match vendor with
  | .ok _ => true
  | .error _ => false

/-- Model of `S3Client.object_exists`: try/except around `head_object`. -/
def s3_object_exists (vendor : Except String Unit) : Bool :=
  match vendor with
  | .ok _ => true
  | .error _ => false

/-- Model of `OpenSearchClient.get_document`: try/except around `self._conn.get`;
on success `response.get("_source")`, any exception becomes `None`. -/
def os_get_document (vendor : Except String (List (String × PyJson))) :
    Option PyJson :=
  match vendor with
  | .ok response => (response.find? (fun p => p.1 = "_source")).map (·.2)
  | .error _ => none

/-! ## OpenSearch query bodies and `OpenSearchClient`
(src/opensearch_client/my_opensearch_client/client/client.py)

Query bodies are Python dicts handed to `self._conn.search`; numbers here
include the float vector components, modelled as rationals. -/

inductive OsJson where
  | onull : OsJson
  | obool : Bool → OsJson
  | onum : ℚ → OsJson
  | ostr : String → OsJson
  | oarr : List OsJson → OsJson
  | oobj : List (String × OsJson) → OsJson

/-- Model of `dict.get` on an object body. -/
def osGet (o : OsJson) (k : String) : Option OsJson :=
  match o with
  | .oobj fs => (fs.find? (fun p => p.1 = k)).map (·.2)
  | _ => none

/-- Python truthiness of a JSON value. -/
def osTruthy : OsJson → Bool
  | .onull => false
  | .obool b => b
  | .onum q => q != 0
  | .ostr s => s != ""
  | .oarr l => !l.isEmpty
  | .oobj fs => !fs.isEmpty

/-- Python `x is not None` on the result of a `dict.get`. -/
def pyIsNotNone (v : Option OsJson) : Bool :=
  match v with
  | some _ => true
  | none => false

/-- The body built by `OpenSearchClient.hybrid_search` from its arguments,
exactly as the source constructs it: a knn clause (with the filter inside
the knn query when `filter` is truthy), a `multi_match` text clause when
`text_fields` is truthy and a `query_string` clause otherwise, combined
under `bool.should` with `minimum_should_match: 1`, plus a `bool.filter`
added afterwards when `filter` is truthy.  `vector_weight` and
`text_weight` are arguments of the method (defaults 0.5) but, as the
source's closing comments state, never enter the body. -/
def hybrid_search_body (vector_field : String) (query_vector : List ℚ)
    (query_text : String) (text_fields : Option (List String)) (size : Int)
    (vector_weight text_weight : ℚ)
    (filter : Option (List (String × OsJson))) : OsJson :=
  let knn_query : List (String × OsJson) :=
    [("vector", .oarr (query_vector.map .onum)), ("k", .onum size)]
  let knn_query : List (String × OsJson) :=
    match filter with
    | some (f :: fs) => knn_query ++ [("filter", .oobj (f :: fs))]
    | _ => knn_query
  let text_query : OsJson :=
    match text_fields with
    | some (f :: fs) =>
        .oobj [("multi_match",
                .oobj [("query", .ostr query_text),
                       ("fields", .oarr ((f :: fs).map .ostr))])]
    | _ => .oobj [("query_string", .oobj [("query", .ostr query_text)])]
  let bool_query : List (String × OsJson) :=
    [("should", .oarr [.oobj [("knn", .oobj [(vector_field, .oobj knn_query)])],
                       text_query]),
     ("minimum_should_match", .onum 1)]
  let bool_query : List (String × OsJson) :=
    match filter with
    | some (f :: fs) => bool_query ++ [("filter", .oarr [.oobj (f :: fs)])]
    | _ => bool_query
  .oobj [("size", .onum size), ("query", .oobj [("bool", .oobj bool_query)])]

/-- Modelled from the amended claim wording: the hybrid query body as a
fixed, linear translation of `vector_field`, `query_vector`, `query_text`,
`text_fields`, `size` and `filter` into nested dictionaries, branching only
on the presence (Python truthiness) of the optional `text_fields` and
`filter`, and mentioning no weight. -/
def hybrid_body_spec (vector_field : String) (query_vector : List ℚ)
    (query_text : String) (text_fields : Option (List String)) (size : Int)
    (filter : Option (List (String × OsJson))) : OsJson :=
  let filterPresent := match filter with
    | some (_ :: _) => true
    | _ => false
  let knn_fields : List (String × OsJson) :=
    [("vector", .oarr (query_vector.map .onum)), ("k", .onum size)] ++
      (if filterPresent then
        [("filter", .oobj (filter.getD []))] else [])
  let text_query : OsJson :=
    match text_fields with
    | some (f :: fs) =>
        .oobj [("multi_match",
                .oobj [("query", .ostr query_text),
                       ("fields", .oarr ((f :: fs).map .ostr))])]
    | _ => .oobj [("query_string", .oobj [("query", .ostr query_text)])]
  .oobj [("size", .onum size),
         ("query", .oobj [("bool", .oobj
           ([("should", .oarr [.oobj [("knn", .oobj [(vector_field, .oobj knn_fields)])],
                               text_query]),
             ("minimum_should_match", .onum 1)] ++
            (if filterPresent then
              [("filter", .oarr [.oobj (filter.getD [])])] else [])))])]

/-! ## OpenSearch connection with a call log (claims C6, C10)

`OsConn` packages the backend behaviour (what each vendor call would
answer) with the sequence of vendor calls issued; a method that issues no
call leaves the connection — including its log — unchanged. -/

structure OsConn where
  bulkResponse : List OsJson → Bool → OsJson
  mgetResponse : String → List String → OsJson
  searchResponse : String → OsJson → OsJson
  calls : List String

/-- Model of `self._conn.bulk(body=..., refresh=...)`. -/
def conn_bulk (c : OsConn) (body : List OsJson) (refresh : Bool) :
    OsJson × OsConn :=
  (c.bulkResponse body refresh, { c with calls := c.calls ++ ["bulk"] })

/-- Model of `self._conn.mget(index=..., body={"ids": ...})`. -/
def conn_mget (c : OsConn) (index : String) (ids : List String) :
    OsJson × OsConn :=
  (c.mgetResponse index ids, { c with calls := c.calls ++ ["mget"] })

/-- Model of `self._conn.search(index=..., body=...)`. -/
def conn_search (c : OsConn) (index : String) (body : OsJson) :
    OsJson × OsConn :=
  (c.searchResponse index body, { c with calls := c.calls ++ ["search"] })

/-- The bulk request body built by `bulk_index_documents`: an action line
then the document, for each document; the action carries `_id` when
`document_ids` is truthy, covers position `i`, and holds a truthy id
there. -/
def bulkBody (index : String) (document_ids : Option (List (Option String))) :
    List OsJson → Nat → List OsJson
  | [], _ => []
  | doc :: rest, i =>
      let doc_id : Option String :=
        match document_ids with
        | some (x :: xs) => ((x :: xs).get? i).getD none
        | _ => none
      let action_fields : List (String × OsJson) :=
        match doc_id with
        | some s => if s = "" then [("_index", .ostr index)]
                    else [("_index", .ostr index), ("_id", .ostr s)]
        | none => [("_index", .ostr index)]
      .oobj [("index", .oobj action_fields)] :: doc ::
        bulkBody index document_ids rest (i + 1)

/-- Model of `OpenSearchClient.bulk_index_documents`: empty input short-circuits to
`{"errors": False, "items": []}` with no vendor call; otherwise one bulk
call, then the error scan over the response items. -/
def bulk_index_documents (index : String) (documents : List OsJson)
    (document_ids : Option (List (Option String))) (refresh : Bool)
    (conn : OsConn) : OsJson × OsConn :=
  if documents.isEmpty then
    (.oobj [("errors", .obool false), ("items", .oarr [])], conn)
  else
    let body := bulkBody index document_ids documents 0
    let (response, conn2) := conn_bulk conn body refresh
    let items : List OsJson :=
      match osGet response "items" with
      | some (.oarr l) => l
      | _ => []
    let has_errors : Bool :=
      if osTruthy ((osGet response "errors").getD .onull) then
        items.any (fun item =>
          pyIsNotNone (osGet ((osGet item "index").getD (.oobj [])) "error"))
      else false
    (.oobj [("errors", .obool has_errors),
            ("items", .oarr items),
            ("took", (osGet response "took").getD (.onum 0))], conn2)

/-- Model of `OpenSearchClient.get_documents`: empty input short-circuits to `{}`
with no vendor call; otherwise one mget call, then the docs fold. -/
def get_documents (index : String) (document_ids : List String)
    (conn : OsConn) : List (String × Option OsJson) × OsConn :=
  if document_ids.isEmpty then ([], conn)
  else
    let (response, conn2) := conn_mget conn index document_ids
    let docs : List OsJson :=
      match osGet response "docs" with
      | some (.oarr l) => l
      | _ => []
    (docs.foldl (fun result doc =>
        match osGet doc "_id" with
        | some (.ostr doc_id) =>
            if doc_id = "" then result
            else if osTruthy ((osGet doc "found").getD .onull) then
              result ++ [(doc_id, osGet doc "_source")]
            else result ++ [(doc_id, none)]
        | _ => result) [], conn2)

/-- The body built by `OpenSearchClient.vector_search`: a knn query with
the filter inside the knn clause when `filter` is truthy. -/
def vector_search_body (vector_field : String) (query_vector : List ℚ)
    (size : Int) (filter : Option (List (String × OsJson))) : OsJson :=
  let knn_query : List (String × OsJson) :=
    [("vector", .oarr (query_vector.map .onum)), ("k", .onum size)]
  let knn_query : List (String × OsJson) :=
    match filter with
    | some (f :: fs) => knn_query ++ [("filter", .oobj (f :: fs))]
    | _ => knn_query
  .oobj [("size", .onum size),
         ("query", .oobj [("knn", .oobj [(vector_field, .oobj knn_query)])])]

/-- The body built by `OpenSearchClient.bm25_search`: `multi_match` over
the given fields when truthy, `match _all` otherwise; a truthy filter
replaces the query with a `bool` of `must` and `filter`. -/
def bm25_search_body (query_text : String) (fields : Option (List String))
    (size : Int) (filter : Option (List (String × OsJson))) : OsJson :=
  let query : OsJson :=
    match fields with
    | some (f :: fs) =>
        .oobj [("multi_match",
                .oobj [("query", .ostr query_text),
                       ("fields", .oarr ((f :: fs).map .ostr))])]
    | _ => .oobj [("match", .oobj [("_all", .ostr query_text)])]
  match filter with
  | some (f :: fs) =>
      .oobj [("size", .onum size),
             ("query", .oobj [("bool",
               .oobj [("must", .oarr [query]),
                      ("filter", .oarr [.oobj (f :: fs)])])])]
  | _ => .oobj [("size", .onum size), ("query", query)]

/-- Model of `VectorSearchRequest` with its declared constraint
`size = Field(10, ge=1, le=1000)`. -/
structure VectorSearchRequest where
  index : String
  vector_field : String
  query_vector : List ℚ
  size : Int
  filter : Option (List (String × OsJson))

/-- Pydantic validation of `VectorSearchRequest`. -/
def validVectorSearch (r : VectorSearchRequest) : Bool :=
  1 ≤ r.size && r.size ≤ 1000

/-- Model of `BM25SearchRequest` with its declared constraint
`size = Field(10, ge=1, le=1000)`. -/
structure BM25SearchRequest where
  index : String
  query_text : String
  fields : Option (List String)
  size : Int
  filter : Option (List (String × OsJson))

/-- Pydantic validation of `BM25SearchRequest`. -/
def validBM25Search (r : BM25SearchRequest) : Bool :=
  1 ≤ r.size && r.size ≤ 1000

/-- POST /opensearch/search/vector: schema validation, then exactly one
vendor search call. -/
def vector_search_route (r : VectorSearchRequest) (conn : OsConn) :
    RouteResult OsJson × OsConn :=
  if validVectorSearch r then
    let body := vector_search_body r.vector_field r.query_vector r.size r.filter
    let (response, conn2) := conn_search conn r.index body
    (.ok response, conn2)
  else (.validationError, conn)

/-- POST /opensearch/search/bm25: schema validation, then exactly one
vendor search call. -/
def bm25_search_route (r : BM25SearchRequest) (conn : OsConn) :
    RouteResult OsJson × OsConn :=
  if validBM25Search r then
    let body := bm25_search_body r.query_text r.fields r.size r.filter
    let (response, conn2) := conn_search conn r.index body
    (.ok response, conn2)
  else (.validationError, conn)

/-! ## Settings from environment variables (claim C8)

Environment name resolution of pydantic-settings, the vendor library the
settings classes are built on, per its documented behaviour: a field
without an alias reads `env_prefix + field_name`; a field with an alias
reads the alias itself (the prefix is not applied to aliases); with
`case_sensitive=False` the lookup is case-insensitive. -/

/-- ASCII lowercase of one character. -/
def lowerChar (c : Char) : Char :=
  if 65 ≤ c.toNat ∧ c.toNat ≤ 90 then Char.ofNat (c.toNat + 32) else c

/-- ASCII lowercase of a string (environment names are ASCII). -/
def lowerStr (s : String) : String :=
  String.mk (s.data.map lowerChar)

/-- Case-insensitive lookup in the process environment. -/
def envLookup (env : List (String × String)) (key : String) : Option String :=
  (env.find? (fun p => lowerStr p.1 = lowerStr key)).map (·.2)

/-- The environment variable a field is read from. -/
def envKey (pfx fieldName : String) (aliasName : Option String) : String :=
  match aliasName with
  | some a => a
  | none => pfx ++ fieldName

/-- Model of `Settings.aws_access_key_id` (src/s3_client/base_settings.py): field
name `aws_access_key_id`, no alias, `env_prefix="AWS_"`, default `None`. -/
def settings_aws_access_key_id (env : List (String × String)) :
    Option String :=
  envLookup env (envKey "AWS_" "aws_access_key_id" none)

/-- Model of `S3Settings.access_key_id`
(src/s3_client/my_s3_client/endpoint/base_settings.py): field
`access_key_id` with `alias="aws_access_key_id"`, default `None`. -/
def s3settings_access_key_id (env : List (String × String)) :
    Option String :=
  envLookup env (envKey "AWS_" "access_key_id" (some "aws_access_key_id"))

/-- Model of `ArtemisSettings.host`
(src/artemis_client/my_artemis_client/endpoint/base_settings.py): field
`host` with `alias="artemis_host"`, default `"localhost"`. -/
def artemis_settings_host (env : List (String × String)) : String :=
  (envLookup env (envKey "ARTEMIS_" "host" (some "artemis_host"))).getD
    "localhost"

/-! ## Artemis one-shot sender (claim C7)
(src/artemis_client/my_artemis_client/client/client.py)

`_OneShotSender` is a proton `MessagingHandler`; the reactor drives it
with a sequence of events.  The state carries the handler's `sent` and
`error` attributes and whether `self.sender` was created; processing an
event also reports how many AMQP messages were sent during it. -/

inductive AmqpEvent where
  | evStart : Bool → AmqpEvent
  | evConnectionOpened : AmqpEvent
  | evLinkOpened : AmqpEvent
  | evSendable : Bool → Bool → AmqpEvent
  | evAccepted : AmqpEvent
  | evRejected : String → AmqpEvent
  | evConnectionClosed : AmqpEvent
  | evTransportError : String → AmqpEvent

structure SenderState where
  sent : Bool
  error : Option String
  senderSet : Bool

/-- The handler's `__init__`: `sent = False`, `error = None`,
`sender = None`. -/
def initSender : SenderState := ⟨false, none, false⟩

/-- One handler callback: `on_start` (its Bool: connect and create_sender
succeeded), `on_sendable` (its Bools: the event carries a sender link;
`sender.send` raised), `on_accepted`, `on_rejected`, `on_transport_error`,
and the logging-only callbacks.  The `Nat` counts AMQP messages sent. -/
def handleEvent (s : SenderState) : AmqpEvent → SenderState × Nat
  | .evStart ok =>
      if ok then ({ s with senderSet := true }, 0)
      else ({ s with error := some "connection failed" }, 0)
  | .evSendable hasSender sendRaises =>
      if hasSender && !s.sent then
        if sendRaises then ({ s with error := some "send failed" }, 0)
        else ({ s with sent := true }, 1)
      else (s, 0)
  | .evRejected reason =>
      ({ s with error := some ("Message rejected: " ++ reason) }, 0)
  | .evTransportError cond =>
      ({ s with error := some ("Transport error: " ++ cond) }, 0)
  | _ => (s, 0)

/-- The reactor run: fold the handler over the event sequence, totalling
the messages sent. -/
def runEvents (s : SenderState) : List AmqpEvent → SenderState × Nat
  | [] => (s, 0)
  | e :: rest =>
      let (s2, n) := handleEvent s e
      let (s3, m) := runEvents s2 rest
      (s3, n + m)

/-- Model of `ArtemisClient.send_message`: build a fresh `_OneShotSender`, run the
container in a worker thread (`runRaises`: that call raised and the
try/except returned `False`), then `False` when `sender.error` is set,
else `sender.sent`. -/
def send_message (events : List AmqpEvent) (runRaises : Bool) : Bool :=
  let sender := (runEvents initSender events).1
  if runRaises then false
  else if sender.error.isSome then false
  else sender.sent

/-! ## Theorems -/

section Theorems

/-- Claim C1, as stated, fails on dict messages: pushing the dict
`{"a": 1}` into an empty queue and popping from the opposite side returns
the JSON string `"{\"a\": 1}"`, which is not the pushed dict value. -/
theorem c1_push_pop_dict_counterexample :
    (queue_pop "q" "right"
      (queue_push "q" (.mdict [("a", .pint 1)]) "left" (fun _ => [])).2).1
        = some "\x7b\"a\": 1\x7d" ∧
    messageToJson (.mdict [("a", .pint 1)]) ≠ PyJson.pstr "\x7b\"a\": 1\x7d" := by
  constructor
  · rfl
  · intro h
    simp [messageToJson] at h

/-- Claim C1 (amended): pushing a message into an otherwise empty queue
and popping from the opposite side returns the stored string — the message
itself when it is a string, its `json.dumps` serialisation when it is a
dict or a list. -/
theorem c1_push_pop_round_trip (queue_name : String) (message : RedisMessage)
    (side : String) (st : RedisState)
    (hside : side = "left" ∨ side = "right")
    (hempty : st queue_name = []) :
    (queue_pop queue_name (oppositeSide side)
      (queue_push queue_name message side st).2).1
        = some (messageToStr message) := by
  rcases hside with h | h <;> subst h <;>
    simp [queue_push, queue_pop, oppositeSide, lpush, rpush, lpop, rpop,
          setQueue, hempty]

/-- Witness for `c1_push_pop_round_trip` at a concrete input. -/
theorem c1_push_pop_round_trip_witness :
    (("left" : String) = "left" ∨ ("left" : String) = "right") ∧
    ((fun _ => [] : RedisState) "jobs" = []) ∧
    (queue_pop "jobs" (oppositeSide "left")
      (queue_push "jobs" (.mstr "hello") "left" (fun _ => [])).2).1
        = some (messageToStr (.mstr "hello")) :=
  ⟨Or.inl rfl, rfl,
   c1_push_pop_round_trip "jobs" (.mstr "hello") "left" (fun _ => [])
     (Or.inl rfl) rfl⟩

/-- Claim C4: uploading a byte string with `S3Client.upload_object` and
then downloading the same bucket/key with `S3Client.download_object`
returns exactly the uploaded bytes; the payload passes through the client
unchanged. -/
theorem c4_upload_download_round_trip (bucket_name object_key : String)
    (data : List Nat) (content_type : Option String)
    (metadata : Option (List (String × String)))
    (fs : String → Option (List Nat)) (store : S3Store) :
    download_object bucket_name object_key
      (upload_object bucket_name object_key (.ubytes data) content_type
        metadata fs store).2 = .ok data := by
  simp [download_object, upload_object, readUploadData, get_object, put_object]

/-- Claim C2, as stated, fails: `S3Client.download_object` and
`OpenSearchClient.ping` — both cited by the claim — have no try/except, so
the vendor exception propagates instead of becoming a sentinel: a missing
object makes `download_object` raise `NoSuchKey`, and a raising vendor
ping passes its exception through `OpenSearchClient.ping` unchanged. -/
theorem c2_not_all_methods_catch_counterexample :
    download_object "bucket" "key" (fun _ _ => none)
        = Except.error "NoSuchKey" ∧
    opensearch_ping (Except.error "ConnectionError")
        = Except.error "ConnectionError" := by
  exact ⟨rfl, rfl⟩

/-- Claim C2 (amended): only some wrapper methods catch the broad
exception and return a sentinel — `RedisClient.ping`, `S3Client.ping` and
`S3Client.object_exists` return `False`, `OpenSearchClient.get_document`
returns `None` — while others let the vendor exception propagate:
`OpenSearchClient.ping` returns the raising call directly, and
`S3Client.download_object` raises on a missing object. -/
theorem c2_error_handling_by_method (e : String) (bucket key : String)
    (store : S3Store) :
    redis_ping (Except.error e) = false ∧
    s3_ping (Except.error e) = false ∧
    s3_object_exists (Except.error e) = false ∧
    os_get_document (Except.error e) = none ∧
    opensearch_ping (Except.error e) = Except.error e ∧
    (store bucket key = none →
      download_object bucket key store = Except.error "NoSuchKey") := by
  refine ⟨rfl, rfl, rfl, rfl, rfl, fun h => ?_⟩
  simp [download_object, get_object, h]

/-- Witness for `c2_error_handling_by_method` at a concrete input. -/
theorem c2_error_handling_by_method_witness :
    redis_ping (Except.error "boom") = false ∧
    s3_ping (Except.error "boom") = false ∧
    s3_object_exists (Except.error "boom") = false ∧
    os_get_document (Except.error "boom") = none ∧
    opensearch_ping (Except.error "boom") = Except.error "boom" ∧
    ((fun _ _ => none : S3Store) "b" "k" = none →
      download_object "b" "k" (fun _ _ => none) = Except.error "NoSuchKey") :=
  c2_error_handling_by_method "boom" "b" "k" (fun _ _ => none)

/-- Claim C3, as stated, fails: two hybrid search requests that differ
only in `vector_weight` and `text_weight` produce the same query body, so
the weights are not reflected in the constructed body. -/
theorem c3_weights_not_in_body_counterexample :
    hybrid_search_body "emb" [1] "hello" none 10 0 1 none
        = hybrid_search_body "emb" [1] "hello" none 10 1 0 none ∧
    (0 : ℚ) ≠ 1 := by
  exact ⟨rfl, by norm_num⟩

/-- Claim C3 (amended): the hybrid query body is a fixed, linear
translation of `vector_field`, `query_vector`, `query_text`,
`text_fields`, `size` and `filter` into nested dictionaries, branching
only on the presence (Python truthiness) of the optional `text_fields` and
`filter`; `vector_weight` and `text_weight` are accepted by the method but
do not enter the body. -/
theorem c3_hybrid_body_fixed_translation (vector_field : String)
    (query_vector : List ℚ) (query_text : String)
    (text_fields : Option (List String)) (size : Int)
    (vector_weight text_weight : ℚ)
    (filter : Option (List (String × OsJson))) :
    hybrid_search_body vector_field query_vector query_text text_fields size
        vector_weight text_weight filter
      = hybrid_body_spec vector_field query_vector query_text text_fields
          size filter := by
  cases filter with
  | none =>
      cases text_fields with
      | none => rfl
      | some tf => cases tf <;> rfl
  | some f =>
      cases f with
      | nil =>
          cases text_fields with
          | none => rfl
          | some tf => cases tf <;> rfl
      | cons x xs =>
          cases text_fields with
          | none => rfl
          | some tf => cases tf <;> rfl

/-- Claim C5: the POST /redis/queues/pop route fails with 404 exactly when
the awaited `queue_pop` produced `None`; a vendor exception propagates to
the HTTP layer unhandled (it is not mapped to 404); a popped message comes
back with the queue name; and `queue_pop` produces `None` exactly when the
queue is empty. -/
theorem c5_pop_route_404_iff_empty (queue_name : String)
    (v : Except String (Option String)) :
    (queue_pop_route queue_name v
        = .httpError 404 ("Queue " ++ singleQuote ++ queue_name ++
            singleQuote ++ " is empty")
      ↔ v = .ok none) ∧
    (∀ e, v = .error e → queue_pop_route queue_name v = .unhandled e) ∧
    (∀ m, v = .ok (some m) → queue_pop_route queue_name v
        = .ok (.pobj [("queue_name", .pstr queue_name),
                      ("message", .pstr m)])) ∧
    (∀ side st, (queue_pop queue_name side st).1 = none ↔
        st queue_name = []) := by
  refine ⟨?_, ?_, ?_, ?_⟩
  · cases v with
    | error e => simp [queue_pop_route]
    | ok o => cases o <;> simp [queue_pop_route]
  · rintro e rfl; rfl
  · rintro m rfl; rfl
  · intro side st
    by_cases hs : side = "left"
    · cases h : st queue_name <;>
        simp [queue_pop, hs, lpop, h]
    · cases h : st queue_name with
      | nil => simp [queue_pop, hs, rpop, h]
      | cons a l =>
          simp only [queue_pop, hs, if_false, rpop, h]
          cases hg : (a :: l).getLast? with
          | none => exact absurd (List.getLast?_eq_none_iff.mp hg) (by simp)
          | some x => simp

/-- Claim C6: each request model enforces exactly its declared ranges and
patterns — blocking pop: timeout in [0, 3600] and side in left/right;
peek: count in [1, 1000] and side in left/right; presigned URL:
expiration in [1, 604800] and method in get_object/put_object; vector and
BM25 search: size in [1, 1000] — and an invalid request is rejected with
the validation error before any vendor operation is invoked. -/
theorem c6_validation_before_vendor (r1 : QueueBlockingPopRequest)
    (r2 : QueuePeekRequest) (r3 : GeneratePresignedUrlRequest)
    (r4 : VectorSearchRequest) (r5 : BM25SearchRequest) (st : RedisState)
    (presign : String → String → Int → String → String) (conn : OsConn) :
    (validBlockingPop r1 = true ↔
      (0 ≤ r1.timeout ∧ r1.timeout ≤ 3600 ∧
        (r1.side = "left" ∨ r1.side = "right"))) ∧
    (validPeek r2 = true ↔
      (1 ≤ r2.count ∧ r2.count ≤ 1000 ∧
        (r2.side = "left" ∨ r2.side = "right"))) ∧
    (validPresigned r3 = true ↔
      (1 ≤ r3.expiration ∧ r3.expiration ≤ 604800 ∧
        (r3.method = "get_object" ∨ r3.method = "put_object"))) ∧
    (validVectorSearch r4 = true ↔ (1 ≤ r4.size ∧ r4.size ≤ 1000)) ∧
    (validBM25Search r5 = true ↔ (1 ≤ r5.size ∧ r5.size ≤ 1000)) ∧
    (validBlockingPop r1 = false →
      blocking_pop_route r1 st = (.validationError, st, 0)) ∧
    (validPeek r2 = false → peek_route r2 st = (.validationError, st, 0)) ∧
    (validPresigned r3 = false →
      presigned_url_route r3 presign = (.validationError, 0)) ∧
    (validVectorSearch r4 = false →
      vector_search_route r4 conn = (.validationError, conn)) ∧
    (validBM25Search r5 = false →
      bm25_search_route r5 conn = (.validationError, conn)) := by
  refine ⟨?_, ?_, ?_, ?_, ?_, ?_, ?_, ?_, ?_, ?_⟩
  · simp [validBlockingPop, sidePattern, and_assoc]
  · simp [validPeek, sidePattern, and_assoc]
  · simp [validPresigned, methodPattern, and_assoc]
  · simp [validVectorSearch]
  · simp [validBM25Search]
  · intro h; simp [blocking_pop_route, h]
  · intro h; simp [peek_route, h]
  · intro h; simp [presigned_url_route, h]
  · intro h; simp [vector_search_route, h]
  · intro h; simp [bm25_search_route, h]

/-- Each handler event either sends nothing and leaves `sent` unchanged,
or sends exactly one message, setting `sent` from `false` to `true`. -/
theorem handleEvent_send_cases (s : SenderState) (e : AmqpEvent) :
    ((handleEvent s e).2 = 0 ∧ (handleEvent s e).1.sent = s.sent) ∨
    ((handleEvent s e).2 = 1 ∧ (handleEvent s e).1.sent = true ∧
      s.sent = false) := by
  cases e with
  | evStart ok => cases ok <;> simp [handleEvent]
  | evSendable hasSender sendRaises =>
      simp only [handleEvent]
      by_cases hg : (hasSender && !s.sent) = true
      · rw [if_pos hg]
        have hsent : s.sent = false := by
          have := (Bool.and_eq_true _ _).mp hg
          simpa using this.2
        cases sendRaises with
        | false => right; exact ⟨rfl, rfl, hsent⟩
        | true => left; exact ⟨rfl, rfl⟩
      · rw [if_neg hg]; left; exact ⟨rfl, rfl⟩
  | evConnectionOpened => left; exact ⟨rfl, rfl⟩
  | evLinkOpened => left; exact ⟨rfl, rfl⟩
  | evAccepted => left; exact ⟨rfl, rfl⟩
  | evRejected reason => left; exact ⟨rfl, rfl⟩
  | evConnectionClosed => left; exact ⟨rfl, rfl⟩
  | evTransportError cond => left; exact ⟨rfl, rfl⟩

/-- Over any event sequence the handler sends at most one message, and none
at all once `sent` is already set. -/
theorem runEvents_send_bound (es : List AmqpEvent) :
    ∀ s : SenderState, (runEvents s es).2 ≤ if s.sent then 0 else 1 := by
  induction es with
  | nil => intro s; simp [runEvents]
  | cons e rest ih =>
      intro s
      rcases hh : handleEvent s e with ⟨s2, n⟩
      rcases hr : runEvents s2 rest with ⟨s3, m⟩
      have hval : (runEvents s (e :: rest)).2 = n + m := by
        simp [runEvents, hh, hr]
      rw [hval]
      have hm := ih s2
      rw [hr] at hm
      have hcases := handleEvent_send_cases s e
      rw [hh] at hcases
      rcases hcases with ⟨hn, hs⟩ | ⟨hn, hs2, hs⟩
      · dsimp only at hn hs hm
        subst hn
        rw [hs] at hm
        simpa using hm
      · dsimp only at hn hs2 hm
        subst hn
        rw [hs2] at hm
        rw [hs]
        simp at hm ⊢
        omega

/-- Claim C7: during one `ArtemisClient.send_message` invocation at most
one AMQP message is sent, whatever event sequence the reactor delivers —
once the `sent` flag is set, a later `on_sendable` does not send again —
and `send_message` returns `True` only if the message was sent and the
handler recorded no error. -/
theorem c7_send_message_at_most_once (events : List AmqpEvent)
    (runRaises : Bool) :
    (runEvents initSender events).2 ≤ 1 ∧
    (send_message events runRaises = true →
      (runEvents initSender events).1.sent = true ∧
      (runEvents initSender events).1.error = none) := by
  constructor
  · have h := runEvents_send_bound events initSender
    simpa [initSender] using h
  · intro h
    unfold send_message at h
    cases hr : runRaises with
    | true => rw [hr] at h; simp at h
    | false =>
        rw [hr] at h
        simp only [if_neg Bool.false_ne_true, Bool.false_eq_true,
          if_false] at h
        by_cases he : (runEvents initSender events).1.error.isSome
        · rw [if_pos he] at h; simp at h
        · rw [if_neg he] at h
          exact ⟨h, Option.not_isSome_iff_eq_none.mp he⟩

/-- LRANGE from `-count` to `-1` returns the last `count` elements (all of
them when `count` exceeds the length) in their stored left-to-right
order. -/
theorem lrangeList_last_count (l : List String) (count : Int)
    (hc : 1 ≤ count) :
    lrangeList l (-count) (-1) = l.drop (l.length - count.toNat) := by
  unfold lrangeList
  have hs : lrangeStart l.length (-count) = max ((l.length : Int) - count) 0 := by
    unfold lrangeStart
    rw [if_pos (by omega : (-count : Int) < 0)]
    omega
  have he : lrangeStop l.length (-1) = (l.length : Int) - 1 := by
    unfold lrangeStop
    rw [if_pos (by omega : (-1 : Int) < 0)]
    omega
  dsimp only
  rw [hs, he]
  by_cases hl : l = []
  · subst hl
    split <;> simp
  · have hn : 1 ≤ (l.length : Int) := by
      have := List.length_pos.mpr hl
      omega
    split
    · rename_i hcond
      exact absurd hcond (by omega)
    · have hsn : (max ((l.length : Int) - count) 0).toNat
          = l.length - count.toNat := by omega
      rw [hsn]
      apply List.take_of_length_le
      simp only [List.length_drop]
      omega

/-- Claim C9: `queue_peek`, `queue_size` and `queue_exists` leave every
queue unchanged; peeking from the right with count `n` returns the last
`n` elements in their stored left-to-right order (not reversed); and
`queue_exists` is `True` exactly when `queue_size` is strictly positive. -/
theorem c9_inspectors_read_only (queue_name : String) (count : Int)
    (side : String) (st : RedisState) :
    (queue_peek queue_name count side st).2 = st ∧
    (queue_size queue_name st).2 = st ∧
    (queue_exists queue_name st).2 = st ∧
    (1 ≤ count → (queue_peek queue_name count "right" st).1
        = (st queue_name).drop ((st queue_name).length - count.toNat)) ∧
    ((queue_exists queue_name st).1 = true ↔
        0 < (queue_size queue_name st).1) := by
  refine ⟨?_, rfl, rfl, ?_, ?_⟩
  · by_cases h : side = "left" <;> simp [queue_peek, lrange, h]
  · intro hc
    have hpeek : (queue_peek queue_name count "right" st).1
        = lrangeList (st queue_name) (-count) (-1) := by
      simp [queue_peek, lrange]
    rw [hpeek]
    exact lrangeList_last_count (st queue_name) count hc
  · simp [queue_exists, queue_size, llen]

/-- Claim C8, as stated, fails for the `Settings` class of
src/s3_client/base_settings.py: its fields carry no alias, so
pydantic-settings reads `env_prefix + field_name` — the variable
`AWS_AWS_ACCESS_KEY_ID` — and setting `AWS_ACCESS_KEY_ID` alone leaves
`aws_access_key_id` at its default `None`. -/
theorem c8_settings_env_var_counterexample :
    settings_aws_access_key_id [("AWS_ACCESS_KEY_ID", "test-key")] = none ∧
    settings_aws_access_key_id [("AWS_AWS_ACCESS_KEY_ID", "test-key")]
        = some "test-key" := by
  exact ⟨rfl, rfl⟩

/-- Claim C8 (amended): the aliased settings classes read exactly the
documented variables — `AWS_ACCESS_KEY_ID` populates
`S3Settings.access_key_id` and `ARTEMIS_HOST` populates
`ArtemisSettings.host` — while the alias-free `Settings` class of
src/s3_client/base_settings.py prepends `env_prefix` to the already
prefixed field name and therefore reads `AWS_AWS_ACCESS_KEY_ID`, not
`AWS_ACCESS_KEY_ID`. -/
theorem c8_settings_env_vars (v : String) :
    s3settings_access_key_id [("AWS_ACCESS_KEY_ID", v)] = some v ∧
    artemis_settings_host [("ARTEMIS_HOST", v)] = v ∧
    settings_aws_access_key_id [("AWS_ACCESS_KEY_ID", v)] = none ∧
    settings_aws_access_key_id [("AWS_AWS_ACCESS_KEY_ID", v)] = some v := by
  exact ⟨rfl, rfl, rfl, rfl⟩

/-- Claim C10: with an empty documents list `bulk_index_documents` returns
exactly `{"errors": False, "items": []}` and with an empty ids list
`get_documents` returns `{}`; in both cases the connection — its call log
included — is untouched, so no vendor call is issued and no index state
changes. -/
theorem c10_empty_inputs_no_backend_call (index : String)
    (document_ids : Option (List (Option String))) (refresh : Bool)
    (conn : OsConn) :
    bulk_index_documents index [] document_ids refresh conn
        = (.oobj [("errors", .obool false), ("items", .oarr [])], conn) ∧
    get_documents index [] conn = ([], conn) := by
  exact ⟨rfl, rfl⟩

end Theorems
